import Mathlib

/-
Shallow embedding of the digiEduHack CRUD backend
(srcs/server/src/controllers/RegionController.cpp,
 srcs/server/src/controllers/SchoolController.cpp,
 srcs/server/src/controllers/SchoolController.hpp,
 srcs/server/src/dao/Region.hpp, srcs/server/src/dao/School.hpp).

The handlers parse a JSON body, bind string fields as SQL parameters,
execute the statement through the asynchronous database client, and map
the driver's verdict (result or exception) to an HTTP response.  The
embedding renders the statement builders as pure (statement, parameters)
pairs, the body parsing as a total function into Option (the none case
models the paths on which the C++ raises or is undefined), and each
handler callback as the ordered list of externally visible actions it
performs together with the resulting table state.
-/

set_option autoImplicit false

namespace DigiEdu

/-- jsoncpp values as the handlers use them: null, strings, arrays and
objects.  An object is carried as an association list of members; jsoncpp
itself stores members in a map keyed by name, so claims about objects are
read at the level of the key set and of per-key lookup, never of member
order.  Numeric and boolean leaves do not occur in this code path. -/
inductive JsonVal where
  | null : JsonVal
  | str : String → JsonVal
  | arr : List JsonVal → JsonVal
  | obj : List (String × JsonVal) → JsonVal

/-- jsoncpp Value::operator[](const char*) applied to the parsed request
body: defined on objectValue (member lookup, an absent key reads as null)
and on nullValue (the null root is promoted to an empty object, so the
lookup also reads as null); on any other kind resolveReference raises
(JSON_ASSERT), modelled as none. -/
def JsonVal.getField : JsonVal → String → Option JsonVal
  | .null, _ => some .null
  | .obj fs, k => some ((List.lookup k fs).getD .null)
  | _, _ => none

/-- jsoncpp Value::asString on the kinds that can occur here: null converts
to the empty string, a string to itself; arrays and objects are not
convertible (JSON_FAIL), modelled as none. -/
def JsonVal.asString : JsonVal → Option String
  | .null => some ""
  | .str s => some s
  | _ => none

/-- One field extraction of fromCreateRequest: (*json)[key].asString(). -/
def extractField (j : JsonVal) (k : String) : Option String :=
  (j.getField k).bind JsonVal.asString

/-- Key lookup in a JSON object body (none when the body is not an object). -/
def JsonVal.objField : JsonVal → String → Option JsonVal
  | .obj fs, k => List.lookup k fs
  | _, _ => none

/-- The member names of a JSON object body. -/
def JsonVal.objKeys : JsonVal → List String
  | .obj fs => fs.map Prod.fst
  | _ => []

/-- The slice of drogon::HttpRequest the handlers read: getJsonObject()
returns the parsed body, or a null pointer (none) when the body did not
parse as JSON. -/
structure HttpRequest where
  jsonObject : Option JsonVal

/-- dao::Region (Region.hpp): the in-memory entity built from a create
request. -/
structure Region where
  id : String
  name : String
  legalAddress : String
  mainContact : String

/-- dao::School (School.hpp): the in-memory entity built from a create
request. -/
structure School where
  id : String
  name : String
  legalId : String
  address : String
  mainContact : String
  region : String

/-- Region::fromCreateRequest.  The C++ dereferences the getJsonObject
pointer unconditionally and evaluates
(*json)["name"].asString(), (*json)["legal_address"].asString(),
(*json)["main_contact"].asString(), with id initialised to the empty
string.  A null pointer (body did not parse) leaves the dereference
undefined, and a non-object body or a non-convertible field value raises
inside jsoncpp; both are modelled as none. -/
def Region.fromCreateRequest (request : HttpRequest) : Option Region :=
  request.jsonObject.bind fun json =>
    (extractField json "name").bind fun name =>
      (extractField json "legal_address").bind fun legalAddress =>
        (extractField json "main_contact").map fun mainContact =>
          { id := "", name := name, legalAddress := legalAddress,
            mainContact := mainContact }

/-- School::fromCreateRequest, reading name, legal_id, address,
main_contact and region the same way, with id initialised empty. -/
def School.fromCreateRequest (request : HttpRequest) : Option School :=
  request.jsonObject.bind fun json =>
    (extractField json "name").bind fun name =>
      (extractField json "legal_id").bind fun legalId =>
        (extractField json "address").bind fun address =>
          (extractField json "main_contact").bind fun mainContact =>
            (extractField json "region").map fun region =>
              { id := "", name := name, legalId := legalId,
                address := address, mainContact := mainContact,
                region := region }

/-- Region::execCreateSqlAsync: the (statement, bound parameters) pair
handed to execSqlAsync.  When mainContact is empty the statement names
only the id, name and legal_address columns and binds two parameters;
otherwise it also names main_contact and binds it third. -/
def Region.execCreateSqlAsync (r : Region) : String × List String :=
  if r.mainContact = "" then
    ("INSERT INTO region (id, name, legal_address) VALUES(gen_random_uuid(), $1, $2)",
     [r.name, r.legalAddress])
  else
    ("INSERT INTO region (id, name, legal_address, main_contact) VALUES(gen_random_uuid(), $1, $2, $3)",
     [r.name, r.legalAddress, r.mainContact])

/-- School::execCreateSqlAsync always binds all five non-id columns. -/
def School.execCreateSqlAsync (s : School) : String × List String :=
  ("INSERT INTO school (id, name, legal_id, address, main_contact, region) VALUES(gen_random_uuid(), $1, $2, $3, $4, $5)",
   [s.name, s.legalId, s.address, s.mainContact, s.region])

/-- Region::execGetAllSqlAsync: the unfiltered SELECT with no parameters. -/
def Region.execGetAllSqlAsync : String × List String :=
  ("SELECT * FROM region", [])

/-- School::execGetAllSqlAsync. -/
def School.execGetAllSqlAsync : String × List String :=
  ("SELECT * FROM school", [])

/-- Region::execGetSqlAsync: SELECT by id with the id bound as $1. -/
def Region.execGetSqlAsync (id : String) : String × List String :=
  ("SELECT * FROM region WHERE id=$1", [id])

/-- School::execGetSqlAsync. -/
def School.execGetSqlAsync (id : String) : String × List String :=
  ("SELECT * FROM school WHERE id=$1", [id])

/-- A persisted region row.  main_contact is an Option: none stands for
SQL NULL, which is what the column holds when the INSERT omitted it (the
repository ships no schema file; per the spec the omitted column falls
back to a database-side default/null).  drogon Field::as of std::string
reads a NULL column as the empty string. -/
structure RegionRow where
  id : String
  name : String
  legal_address : String
  main_contact : Option String

/-- A persisted school row; every column is bound on insert. -/
structure SchoolRow where
  id : String
  name : String
  legal_id : String
  address : String
  main_contact : String
  region : String

/-- Modelled from the spec: the row a successful region INSERT persists.
The statement itself is in Region.hpp (execCreateSqlAsync); the id column
is filled by gen_random_uuid() and, when the mainContact field is empty,
the omitted main_contact column keeps the database default, which the
spec describes as default/null, modelled as NULL. -/
def Region.insertedRow (r : Region) (uuid : String) : RegionRow :=
  { id := uuid, name := r.name, legal_address := r.legalAddress,
    main_contact := if r.mainContact = "" then none else some r.mainContact }

/-- The row a successful school INSERT persists: all five non-id columns
carry the bound values and id comes from gen_random_uuid(). -/
def School.insertedRow (s : School) (uuid : String) : SchoolRow :=
  { id := uuid, name := s.name, legal_id := s.legalId, address := s.address,
    main_contact := s.mainContact, region := s.region }

/-- Region::getRowToJson: builds a JSON object with members id, name,
legal_address, main_contact read from the row as strings (a NULL
main_contact reads as the empty string).  The association list keeps the
source's insertion order; jsoncpp stores members keyed by name, so only
key-set and per-key facts are claimed about it. -/
def Region.getRowToJson (r : RegionRow) : JsonVal :=
  .obj [("id", .str r.id), ("name", .str r.name),
        ("legal_address", .str r.legal_address),
        ("main_contact", .str (r.main_contact.getD ""))]

/-- School::getRowToJson with the six school columns. -/
def School.getRowToJson (s : SchoolRow) : JsonVal :=
  .obj [("id", .str s.id), ("name", .str s.name),
        ("legal_id", .str s.legal_id), ("address", .str s.address),
        ("main_contact", .str s.main_contact), ("region", .str s.region)]

/-- The rows SELECT by id returns over a table state: exactly the rows
whose id column equals the bound identifier, in table order. -/
def regionSelectById (db : List RegionRow) (id : String) : List RegionRow :=
  db.filter (fun row => row.id == id)

/-- SELECT by id over the school table. -/
def schoolSelectById (db : List SchoolRow) (id : String) : List SchoolRow :=
  db.filter (fun row => row.id == id)

/-- An HTTP response body as the handlers produce it: empty (emptyResponse)
or a JSON document (jsonResponse). -/
inductive Body where
  | empty : Body
  | json : JsonVal → Body

/-- An HTTP response: status code and body.  Modelled from the spec:
utils::emptyResponse and utils::jsonResponse live in a header outside the
sources; per the spec they send a response with the given status and an
empty respectively JSON body. -/
structure Response where
  status : Nat
  body : Body

/-- The externally visible actions a handler callback performs, in
program order: sending a response through the callback, rolling the
transaction back, and writing the error detail to the diagnostic stream. -/
inductive Effect where
  | respond : Response → Effect
  | rollback : Effect
  | logError : String → Effect

/-- Discriminator for respond effects. -/
def Effect.isRespond : Effect → Bool
  | .respond _ => true
  | _ => false

/-- Discriminator for rollback effects. -/
def Effect.isRollback : Effect → Bool
  | .rollback => true
  | _ => false

/-- The database driver's verdict on a submitted statement: a result, or
a DrogonDbException carrying its message. -/
inductive SqlOutcome (α : Type) where
  | ok : α → SqlOutcome α
  | err : String → SqlOutcome α

/-- Regions::create (RegionController.cpp): builds the entity from the
request, opens a transaction and submits the INSERT.  The success callback
sends an empty 200 (the transaction commits when released); the exception
callback sends an empty 500, then rolls back, then logs e.base().what().
The returned pair is the ordered effect list and the table state after the
transaction is released; none models the undefined path on an unparsed
body. -/
def Regions.create (db : List RegionRow) (request : HttpRequest)
    (uuid : String) (outcome : SqlOutcome Unit) :
    Option (List Effect × List RegionRow) :=
  (Region.fromCreateRequest request).map fun r =>
    match outcome with
    | .ok _ => ([.respond ⟨200, .empty⟩], db ++ [Region.insertedRow r uuid])
    | .err e => ([.respond ⟨500, .empty⟩, .rollback, .logError e], db)

/-- Schools::create (SchoolController.cpp), same shape as Regions::create. -/
def Schools.create (db : List SchoolRow) (request : HttpRequest)
    (uuid : String) (outcome : SqlOutcome Unit) :
    Option (List Effect × List SchoolRow) :=
  (School.fromCreateRequest request).map fun s =>
    match outcome with
    | .ok _ => ([.respond ⟨200, .empty⟩], db ++ [School.insertedRow s uuid])
    | .err e => ([.respond ⟨500, .empty⟩, .rollback, .logError e], db)

/-- Regions::getAll: on a result, builds a JSON array by inserting
getRowToJson of row i at index i for i = 0..size-1 and sends it with 200;
on an exception sends an empty 500 and logs. -/
def Regions.getAll (outcome : SqlOutcome (List RegionRow)) : List Effect :=
  match outcome with
  | .ok rows => [.respond ⟨200, .json (.arr (rows.map Region.getRowToJson))⟩]
  | .err e => [.respond ⟨500, .empty⟩, .logError e]

/-- Schools::getAll. -/
def Schools.getAll (outcome : SqlOutcome (List SchoolRow)) : List Effect :=
  match outcome with
  | .ok rows => [.respond ⟨200, .json (.arr (rows.map School.getRowToJson))⟩]
  | .err e => [.respond ⟨500, .empty⟩, .logError e]

/-- Regions::get: on an empty result sends an empty 404; otherwise sends
getRowToJson of r[0] with 200; on an exception sends an empty 500 and
logs. -/
def Regions.get (outcome : SqlOutcome (List RegionRow)) : List Effect :=
  match outcome with
  | .ok [] => [.respond ⟨404, .empty⟩]
  | .ok (r :: _) => [.respond ⟨200, .json (Region.getRowToJson r)⟩]
  | .err e => [.respond ⟨500, .empty⟩, .logError e]

/-- Schools::get. -/
def Schools.get (outcome : SqlOutcome (List SchoolRow)) : List Effect :=
  match outcome with
  | .ok [] => [.respond ⟨404, .empty⟩]
  | .ok (s :: _) => [.respond ⟨200, .json (School.getRowToJson s)⟩]
  | .err e => [.respond ⟨500, .empty⟩, .logError e]

/-- HTTP methods used by the routing tables. -/
inductive Method where
  | get : Method
  | post : Method
deriving DecidableEq

/-- One route registration: method, full path pattern, handler name. -/
structure RouteEntry where
  method : Method
  path : String
  handler : String
deriving DecidableEq

/-- The Schools routing table (SchoolController.hpp): the controller
derives from BaseController with base path /schools and registers
PATH(Schools::create, "", Post), PATH(Schools::getAll, "", Get) and
PATH(Schools::get, "/{1}", Get); each full pattern is the base path with
the registered sub-path appended (the PATH machinery itself lives in a
header outside the sources; its composition is modelled from the spec's
method-plus-path routing table). -/
def Schools.routes : List RouteEntry :=
  [ ⟨.post, "/schools", "Schools::create"⟩,
    ⟨.get, "/schools", "Schools::getAll"⟩,
    ⟨.get, "/schools" ++ "/{1}", "Schools::get"⟩ ]

/-- Modelled from the spec: RegionController.hpp is not among the sources,
so the Region routing table is taken from the spec's interface table for
resource region — POST /region to create, GET /region to getAll and
GET /region/{id} to get-by-id, the id pattern written /{1} in the code's
convention. -/
def Regions.routes : List RouteEntry :=
  [ ⟨.post, "/region", "Regions::create"⟩,
    ⟨.get, "/region", "Regions::getAll"⟩,
    ⟨.get, "/region" ++ "/{1}", "Regions::get"⟩ ]

/-- Whether the pattern occurs as a contiguous run inside the text. -/
def listHasInfix (pat : List Char) : List Char → Bool
  | [] => pat.isEmpty
  | c :: rest => pat.isPrefixOf (c :: rest) || listHasInfix pat rest

/-- The id member of a response body, when the body is a JSON object that
has one. -/
def Body.idField : Body → Option JsonVal
  | .json (.obj fs) => List.lookup "id" fs
  | _ => none

/-- The id value carried by the first response in an effect list, if any. -/
def returnedId : List Effect → Option String
  | [] => none
  | .respond resp :: _ =>
      match resp.body.idField with
      | some (.str s) => some s
      | _ => none
  | _ :: rest => returnedId rest

/-- A field value on which fromCreateRequest's per-key extraction cannot
raise: absent, null or a string. -/
def okFieldVal : Option JsonVal → Bool
  | none => true
  | some .null => true
  | some (.str _) => true
  | _ => false

/-- The string fromCreateRequest reads off such a field value. -/
def fieldStr : Option JsonVal → String
  | some (.str s) => s
  | _ => ""

/-! Helper lemmas shared by the claim theorems. -/

/-- Extracting a key that is absent from an object body reads the null
member and converts it to the empty string. -/
lemma extractField_lookup_none (fs : List (String × JsonVal)) (k : String)
    (h : List.lookup k fs = none) :
    extractField (.obj fs) k = some "" := by
  simp [extractField, JsonVal.getField, h, JsonVal.asString]

/-- Extracting a key bound to a string value yields that string. -/
lemma extractField_lookup_str (fs : List (String × JsonVal)) (k s : String)
    (h : List.lookup k fs = some (.str s)) :
    extractField (.obj fs) k = some s := by
  simp [extractField, JsonVal.getField, h, JsonVal.asString]

/-- Extraction on an absent, null or string field reads fieldStr of the
lookup and cannot fail. -/
lemma extractField_of_ok (fs : List (String × JsonVal)) (k : String)
    (h : okFieldVal (List.lookup k fs) = true) :
    extractField (.obj fs) k = some (fieldStr (List.lookup k fs)) := by
  rcases hl : List.lookup k fs with _ | v
  · simp [extractField, JsonVal.getField, hl, JsonVal.asString, fieldStr]
  · cases v with
    | null => simp [extractField, JsonVal.getField, hl, JsonVal.asString, fieldStr]
    | str s => simp [extractField, JsonVal.getField, hl, JsonVal.asString, fieldStr]
    | arr l => rw [hl] at h; simp [okFieldVal] at h
    | obj l => rw [hl] at h; simp [okFieldVal] at h

/-- Region.fromCreateRequest on an object body, given the three
extractions. -/
lemma regionFromCreateRequest_obj (fs : List (String × JsonVal))
    (vn va vm : String)
    (hn : extractField (.obj fs) "name" = some vn)
    (ha : extractField (.obj fs) "legal_address" = some va)
    (hm : extractField (.obj fs) "main_contact" = some vm) :
    Region.fromCreateRequest ⟨some (.obj fs)⟩ = some ⟨"", vn, va, vm⟩ := by
  simp [Region.fromCreateRequest, hn, ha, hm]

/-- School.fromCreateRequest on an object body, given the five
extractions. -/
lemma schoolFromCreateRequest_obj (fs : List (String × JsonVal))
    (vn vl vad vm vr : String)
    (hn : extractField (.obj fs) "name" = some vn)
    (hl : extractField (.obj fs) "legal_id" = some vl)
    (had : extractField (.obj fs) "address" = some vad)
    (hm : extractField (.obj fs) "main_contact" = some vm)
    (hr : extractField (.obj fs) "region" = some vr) :
    School.fromCreateRequest ⟨some (.obj fs)⟩ = some ⟨"", vn, vl, vad, vm, vr⟩ := by
  simp [School.fromCreateRequest, hn, hl, had, hm, hr]

/-- Whatever entity Region.fromCreateRequest yields has an empty id. -/
lemma regionFromCreateRequest_id (req : HttpRequest) (r : Region)
    (h : Region.fromCreateRequest req = some r) : r.id = "" := by
  unfold Region.fromCreateRequest at h
  rcases hj : req.jsonObject with _ | j
  all_goals rw [hj] at h
  · simp at h
  · simp only [Option.some_bind] at h
    rcases Option.bind_eq_some.mp h with ⟨vn, hn, h2⟩
    rcases Option.bind_eq_some.mp h2 with ⟨va, ha, h3⟩
    rcases Option.map_eq_some'.mp h3 with ⟨vm, hm, hr⟩
    rw [← hr]

/-- Whatever entity School.fromCreateRequest yields has an empty id. -/
lemma schoolFromCreateRequest_id (req : HttpRequest) (s : School)
    (h : School.fromCreateRequest req = some s) : s.id = "" := by
  unfold School.fromCreateRequest at h
  rcases hj : req.jsonObject with _ | j
  all_goals rw [hj] at h
  · simp at h
  · simp only [Option.some_bind] at h
    rcases Option.bind_eq_some.mp h with ⟨vn, hn, h2⟩
    rcases Option.bind_eq_some.mp h2 with ⟨vl, hl, h3⟩
    rcases Option.bind_eq_some.mp h3 with ⟨vad, had, h4⟩
    rcases Option.bind_eq_some.mp h4 with ⟨vm, hm, h5⟩
    rcases Option.map_eq_some'.mp h5 with ⟨vr, hvr, hs⟩
    rw [← hs]

/-- SELECT by id over a table that gains one fresh row with that id finds
exactly the new row. -/
lemma regionSelectById_snoc_fresh (db : List RegionRow) (row : RegionRow)
    (uuid : String) (hfresh : ∀ r ∈ db, r.id ≠ uuid) (hrow : row.id = uuid) :
    regionSelectById (db ++ [row]) uuid = [row] := by
  unfold regionSelectById
  rw [List.filter_append]
  have h1 : db.filter (fun r => r.id == uuid) = [] := by
    rw [List.filter_eq_nil_iff]
    intro r hr
    simp only [beq_iff_eq]
    exact hfresh r hr
  rw [h1]
  simp [List.filter, hrow]

/-- SELECT by id over the school table, same statement. -/
lemma schoolSelectById_snoc_fresh (db : List SchoolRow) (row : SchoolRow)
    (uuid : String) (hfresh : ∀ s ∈ db, s.id ≠ uuid) (hrow : row.id = uuid) :
    schoolSelectById (db ++ [row]) uuid = [row] := by
  unfold schoolSelectById
  rw [List.filter_append]
  have h1 : db.filter (fun s => s.id == uuid) = [] := by
    rw [List.filter_eq_nil_iff]
    intro s hs
    simp only [beq_iff_eq]
    exact hfresh s hs
  rw [h1]
  simp [List.filter, hrow]

/-- Reading back the stored main_contact recovers the bound field: the
empty field was stored as NULL and reads as the empty string, a non-empty
field was bound verbatim. -/
lemma store_getD (m : String) :
    (if m = "" then (none : Option String) else some m).getD "" = m := by
  by_cases h : m = "" <;> simp [h]

/-! Claim theorems. -/

/-- Claim C3 (confirmed): for every Region create, if main_contact is the
empty string the INSERT omits the main_contact column entirely — the
statement is the three-column form, which does not mention main_contact —
and binds only name and legal_address; if main_contact is non-empty it is
bound as the third parameter of the four-column form.  Every School
create binds all five non-id columns unconditionally. -/
theorem region_school_insert_binding (nm la mc : String) (s : School)
    (hmc : mc ≠ "") :
    (Region.mk "" nm la "").execCreateSqlAsync
      = ("INSERT INTO region (id, name, legal_address) VALUES(gen_random_uuid(), $1, $2)",
         [nm, la])
    ∧ listHasInfix "main_contact".toList
        ((Region.mk "" nm la "").execCreateSqlAsync).1.toList = false
    ∧ (Region.mk "" nm la mc).execCreateSqlAsync
      = ("INSERT INTO region (id, name, legal_address, main_contact) VALUES(gen_random_uuid(), $1, $2, $3)",
         [nm, la, mc])
    ∧ s.execCreateSqlAsync
      = ("INSERT INTO school (id, name, legal_id, address, main_contact, region) VALUES(gen_random_uuid(), $1, $2, $3, $4, $5)",
         [s.name, s.legalId, s.address, s.mainContact, s.region]) := by
  refine ⟨rfl, rfl, ?_, rfl⟩
  simp [Region.execCreateSqlAsync, hmc]

/-- Witness for C3 at concrete field values. -/
theorem region_school_insert_binding_witness :
    (Region.mk "" "n" "a" "").execCreateSqlAsync
      = ("INSERT INTO region (id, name, legal_address) VALUES(gen_random_uuid(), $1, $2)",
         ["n", "a"])
    ∧ listHasInfix "main_contact".toList
        ((Region.mk "" "n" "a" "").execCreateSqlAsync).1.toList = false
    ∧ (Region.mk "" "n" "a" "c").execCreateSqlAsync
      = ("INSERT INTO region (id, name, legal_address, main_contact) VALUES(gen_random_uuid(), $1, $2, $3)",
         ["n", "a", "c"])
    ∧ (School.mk "" "n" "l" "ad" "c" "r").execCreateSqlAsync
      = ("INSERT INTO school (id, name, legal_id, address, main_contact, region) VALUES(gen_random_uuid(), $1, $2, $3, $4, $5)",
         ["n", "l", "ad", "c", "r"]) :=
  region_school_insert_binding "n" "a" "c" (School.mk "" "n" "l" "ad" "c" "r")
    (by decide)

/-- Claim C4 (confirmed): for every get-by-id request, a result containing
a row yields HTTP 200 carrying the single JSON object of that row, and an
empty result yields HTTP 404 with an empty body, for both controllers. -/
theorem get_found_or_404 (r : RegionRow) (rest : List RegionRow)
    (s : SchoolRow) (rest2 : List SchoolRow) :
    Regions.get (.ok []) = [.respond ⟨404, .empty⟩]
    ∧ Regions.get (.ok (r :: rest))
      = [.respond ⟨200, .json (Region.getRowToJson r)⟩]
    ∧ Schools.get (.ok []) = [.respond ⟨404, .empty⟩]
    ∧ Schools.get (.ok (s :: rest2))
      = [.respond ⟨200, .json (School.getRowToJson s)⟩] :=
  ⟨rfl, rfl, rfl, rfl⟩

/-- Claim C9 (confirmed): a get-by-id whose result holds more than one row
responds with the JSON of the first row only; the second and later rows do
not influence the response and no multiplicity check is performed. -/
theorem get_uses_first_row_only (r1 r2 : RegionRow) (rs : List RegionRow)
    (s1 s2 : SchoolRow) (ss : List SchoolRow) :
    Regions.get (.ok (r1 :: r2 :: rs))
      = [.respond ⟨200, .json (Region.getRowToJson r1)⟩]
    ∧ Schools.get (.ok (s1 :: s2 :: ss))
      = [.respond ⟨200, .json (School.getRowToJson s1)⟩] :=
  ⟨rfl, rfl⟩

/-- Claim C6 (confirmed): getAll issues the unfiltered SELECT (whose text
contains no ORDER BY) and, on success, responds HTTP 200 with a JSON array
holding exactly one element per returned row, each produced by the
row-to-JSON mapper, in the storage layer's row order; an empty result
yields the empty array, not an error. -/
theorem getAll_maps_rows_in_order (rows : List RegionRow)
    (rows2 : List SchoolRow) :
    Regions.getAll (.ok rows)
      = [.respond ⟨200, .json (.arr (rows.map Region.getRowToJson))⟩]
    ∧ Regions.getAll (.ok ([] : List RegionRow))
      = [.respond ⟨200, .json (.arr [])⟩]
    ∧ Region.execGetAllSqlAsync = ("SELECT * FROM region", [])
    ∧ listHasInfix "ORDER BY".toList Region.execGetAllSqlAsync.1.toList = false
    ∧ Schools.getAll (.ok rows2)
      = [.respond ⟨200, .json (.arr (rows2.map School.getRowToJson))⟩]
    ∧ Schools.getAll (.ok ([] : List SchoolRow))
      = [.respond ⟨200, .json (.arr [])⟩]
    ∧ School.execGetAllSqlAsync = ("SELECT * FROM school", [])
    ∧ listHasInfix "ORDER BY".toList School.execGetAllSqlAsync.1.toList = false :=
  ⟨rfl, rfl, rfl, rfl, rfl, rfl, rfl, rfl⟩

/-- Claim C7 (confirmed): the row-to-JSON mapper produces an object whose
member names are exactly the fixed snake_case sets — Region: id, name,
legal_address, main_contact; School: id, name, legal_id, address,
main_contact, region — and every declared field is present with its stored
string value, even when that value is the empty string (a NULL Region
main_contact reads as the empty string). -/
theorem getRowToJson_fixed_keys (r : RegionRow) (s : SchoolRow) :
    (Region.getRowToJson r).objKeys
      = ["id", "name", "legal_address", "main_contact"]
    ∧ (Region.getRowToJson r).objField "id" = some (.str r.id)
    ∧ (Region.getRowToJson r).objField "name" = some (.str r.name)
    ∧ (Region.getRowToJson r).objField "legal_address"
      = some (.str r.legal_address)
    ∧ (Region.getRowToJson r).objField "main_contact"
      = some (.str (r.main_contact.getD ""))
    ∧ (School.getRowToJson s).objKeys
      = ["id", "name", "legal_id", "address", "main_contact", "region"]
    ∧ (School.getRowToJson s).objField "id" = some (.str s.id)
    ∧ (School.getRowToJson s).objField "name" = some (.str s.name)
    ∧ (School.getRowToJson s).objField "legal_id" = some (.str s.legal_id)
    ∧ (School.getRowToJson s).objField "address" = some (.str s.address)
    ∧ (School.getRowToJson s).objField "main_contact"
      = some (.str s.main_contact)
    ∧ (School.getRowToJson s).objField "region" = some (.str s.region) :=
  ⟨rfl, rfl, rfl, rfl, rfl, rfl, rfl, rfl, rfl, rfl, rfl, rfl⟩

/-- Counterexample to claim C1 as stated: on a failed Region INSERT at a
concrete request, the error callback's effect order places the 500
response at index 0 and the rollback at index 1, so the transaction is
not rolled back before the response is sent — the test
rollback-index < respond-index evaluates to false. -/
theorem create_failure_respond_precedes_rollback :
    Regions.create []
        ⟨some (.obj [("name", .str "n"), ("legal_address", .str "a"),
                     ("main_contact", .str "m")])⟩
        "u1" (.err "boom")
      = some ([.respond ⟨500, .empty⟩, .rollback, .logError "boom"], [])
    ∧ List.findIdx Effect.isRespond
        [.respond ⟨500, .empty⟩, .rollback, .logError "boom"] = 0
    ∧ List.findIdx Effect.isRollback
        [.respond ⟨500, .empty⟩, .rollback, .logError "boom"] = 1
    ∧ Nat.blt
        (List.findIdx Effect.isRollback
          [.respond ⟨500, .empty⟩, .rollback, .logError "boom"])
        (List.findIdx Effect.isRespond
          [.respond ⟨500, .empty⟩, .rollback, .logError "boom"]) = false :=
  ⟨rfl, rfl, rfl, rfl⟩

/-- Claim C1 (amended): for every create request (Region or School) whose
INSERT fails with a storage-layer error, the handler sends the HTTP 500
empty-body response and then rolls back the transaction (response first,
rollback second, error logged last), and zero rows persist: the table
state after the transaction is released equals the state before the
request. -/
theorem create_failure_500_rollback_no_row
    (db : List RegionRow) (db2 : List SchoolRow) (req req2 : HttpRequest)
    (r : Region) (s : School) (uuid uuid2 e e2 : String)
    (hr : Region.fromCreateRequest req = some r)
    (hs : School.fromCreateRequest req2 = some s) :
    Regions.create db req uuid (.err e)
      = some ([.respond ⟨500, .empty⟩, .rollback, .logError e], db)
    ∧ Schools.create db2 req2 uuid2 (.err e2)
      = some ([.respond ⟨500, .empty⟩, .rollback, .logError e2], db2) := by
  constructor
  · simp [Regions.create, hr]
  · simp [Schools.create, hs]

/-- Witness for the amended C1 at a concrete request and error. -/
theorem create_failure_500_rollback_no_row_witness :
    Regions.create [] ⟨some (.obj [])⟩ "u" (.err "x")
      = some ([.respond ⟨500, .empty⟩, .rollback, .logError "x"], [])
    ∧ Schools.create [] ⟨some (.obj [])⟩ "u" (.err "x")
      = some ([.respond ⟨500, .empty⟩, .rollback, .logError "x"], []) :=
  create_failure_500_rollback_no_row [] [] ⟨some (.obj [])⟩ ⟨some (.obj [])⟩
    ⟨"", "", "", ""⟩ ⟨"", "", "", "", "", ""⟩ "u" "u" "x" "x" rfl rfl

/-- Claim C5 (confirmed): fromCreateRequest extracts the entity fields of
the JSON object body by fixed key names; extracting a key that is missing
from the body yields the empty string for that field without raising; and
the entity's id field is always the empty string regardless of the input.
A body in which every entity key is missing yields the all-empty entity. -/
theorem fromCreateRequest_missing_keys_default_empty
    (fs : List (String × JsonVal)) (k : String)
    (hk : List.lookup k fs = none) :
    extractField (.obj fs) k = some ""
    ∧ (∀ r : Region,
        Region.fromCreateRequest ⟨some (.obj fs)⟩ = some r → r.id = "")
    ∧ (∀ s : School,
        School.fromCreateRequest ⟨some (.obj fs)⟩ = some s → s.id = "")
    ∧ Region.fromCreateRequest ⟨some (.obj [])⟩ = some ⟨"", "", "", ""⟩
    ∧ School.fromCreateRequest ⟨some (.obj [])⟩
      = some ⟨"", "", "", "", "", ""⟩ := by
  refine ⟨extractField_lookup_none fs k hk, ?_, ?_, rfl, rfl⟩
  · intro r h
    exact regionFromCreateRequest_id _ r h
  · intro s h
    exact schoolFromCreateRequest_id _ s h

/-- Witness for C5: a body holding only an unrelated key extracts the
missing name as the empty string, the produced entity has an empty id, and
the all-keys-missing body maps to the all-empty entities. -/
theorem fromCreateRequest_missing_keys_witness :
    extractField (.obj [("x", .str "y")]) "name" = some ""
    ∧ (Region.mk "" "" "" "").id = ""
    ∧ Region.fromCreateRequest ⟨some (.obj [])⟩ = some ⟨"", "", "", ""⟩
    ∧ School.fromCreateRequest ⟨some (.obj [])⟩
      = some ⟨"", "", "", "", "", ""⟩ := by
  have h := fromCreateRequest_missing_keys_default_empty
    [("x", .str "y")] "name" rfl
  exact ⟨h.1, h.2.1 ⟨"", "", "", ""⟩ rfl, h.2.2.2.1, h.2.2.2.2⟩

/-- Counterexample to claim C8 as stated: the School controller's base
path is the pluralized /schools, so its route table holds no entry whose
path is /school; in particular the claimed POST /school registration is
absent. -/
theorem schools_routes_not_slash_school :
    Schools.routes.map RouteEntry.path
      = ["/schools", "/schools", "/schools/{1}"]
    ∧ (Schools.routes.map RouteEntry.path).contains "/school" = false
    ∧ Schools.routes.contains ⟨.post, "/school", "Schools::create"⟩ = false :=
  ⟨rfl, rfl, rfl⟩

/-- Claim C8 (amended): the School controller registers exactly three
routes — POST /schools to create, GET /schools to getAll and
GET /schools/{1} to get-by-id — on the pluralized base path /schools
rather than /school; the Region controller's header is not among the
sources, and the spec-modelled Region table registers exactly
POST /region, GET /region and GET /region/{1}. -/
theorem routes_exact_tables :
    Schools.routes
      = [⟨.post, "/schools", "Schools::create"⟩,
         ⟨.get, "/schools", "Schools::getAll"⟩,
         ⟨.get, "/schools/{1}", "Schools::get"⟩]
    ∧ Regions.routes
      = [⟨.post, "/region", "Regions::create"⟩,
         ⟨.get, "/region", "Regions::getAll"⟩,
         ⟨.get, "/region/{1}", "Regions::get"⟩] :=
  ⟨rfl, rfl⟩

/-- Counterexample to claim C10 as stated: a body that parses as the JSON
array [] satisfies the claim's precondition — the parsed-JSON pointer is
non-null — yet field extraction is not total there: jsoncpp's member
access on a non-object raises, so fromCreateRequest yields no entity. -/
theorem array_body_extraction_not_total :
    (HttpRequest.mk (some (.arr []))).jsonObject.isSome = true
    ∧ Region.fromCreateRequest ⟨some (.arr [])⟩ = none
    ∧ School.fromCreateRequest ⟨some (.arr [])⟩ = none :=
  ⟨rfl, rfl, rfl⟩

/-- Claim C10 (amended): fromCreateRequest dereferences the parsed-JSON
pointer unconditionally, so it is well-defined only when the body parsed
(on a null pointer the model yields no result); under the stronger
precondition that the parsed document is a JSON object whose entity
fields are each absent, null or a string, the extraction is total — every
key lookup yields a string, absent keys defaulting to the empty string —
and the unguarded dereference is unreachable from a parse failure. -/
theorem extraction_total_on_object_bodies (fs : List (String × JsonVal))
    (hn : okFieldVal (List.lookup "name" fs) = true)
    (hla : okFieldVal (List.lookup "legal_address" fs) = true)
    (hmc : okFieldVal (List.lookup "main_contact" fs) = true)
    (hli : okFieldVal (List.lookup "legal_id" fs) = true)
    (had : okFieldVal (List.lookup "address" fs) = true)
    (hrg : okFieldVal (List.lookup "region" fs) = true) :
    Region.fromCreateRequest ⟨some (.obj fs)⟩
      = some ⟨"", fieldStr (List.lookup "name" fs),
              fieldStr (List.lookup "legal_address" fs),
              fieldStr (List.lookup "main_contact" fs)⟩
    ∧ School.fromCreateRequest ⟨some (.obj fs)⟩
      = some ⟨"", fieldStr (List.lookup "name" fs),
              fieldStr (List.lookup "legal_id" fs),
              fieldStr (List.lookup "address" fs),
              fieldStr (List.lookup "main_contact" fs),
              fieldStr (List.lookup "region" fs)⟩
    ∧ Region.fromCreateRequest ⟨none⟩ = none
    ∧ School.fromCreateRequest ⟨none⟩ = none := by
  refine ⟨?_, ?_, rfl, rfl⟩
  · exact regionFromCreateRequest_obj fs _ _ _
      (extractField_of_ok fs "name" hn)
      (extractField_of_ok fs "legal_address" hla)
      (extractField_of_ok fs "main_contact" hmc)
  · exact schoolFromCreateRequest_obj fs _ _ _ _ _
      (extractField_of_ok fs "name" hn)
      (extractField_of_ok fs "legal_id" hli)
      (extractField_of_ok fs "address" had)
      (extractField_of_ok fs "main_contact" hmc)
      (extractField_of_ok fs "region" hrg)

/-- Witness for the amended C10 at the empty object body. -/
theorem extraction_total_on_object_bodies_witness :
    Region.fromCreateRequest ⟨some (.obj [])⟩ = some ⟨"", "", "", ""⟩
    ∧ School.fromCreateRequest ⟨some (.obj [])⟩
      = some ⟨"", "", "", "", "", ""⟩
    ∧ Region.fromCreateRequest ⟨none⟩ = none
    ∧ School.fromCreateRequest ⟨none⟩ = none :=
  extraction_total_on_object_bodies [] rfl rfl rfl rfl rfl rfl

/-- Counterexample to claim C2 as stated: at a concrete valid payload the
successful create responds HTTP 200 with an empty body, so the response
carries no id at all — there is no returned id for the caller to get by. -/
theorem create_returns_no_id :
    Regions.create []
        ⟨some (.obj [("name", .str "n"), ("legal_address", .str "a"),
                     ("main_contact", .str "m")])⟩
        "u1" (.ok ())
      = some ([.respond ⟨200, .empty⟩], [⟨"u1", "n", "a", some "m"⟩])
    ∧ returnedId [.respond ⟨200, .empty⟩] = none :=
  ⟨rfl, rfl⟩

/-- Claim C2 (amended): the create response itself is empty and returns no
id; for every valid create payload, a get by the id the storage layer
assigned to the inserted row (a fresh non-empty uuid) returns a JSON
object whose entity fields equal the input fields exactly — including an
empty Region main_contact, stored as the omitted column and read back as
the empty string — and whose id member is that non-empty uuid, while the
input payload holds no id key. -/
theorem create_then_get_roundtrip
    (db : List RegionRow) (db2 : List SchoolRow)
    (fs fs2 : List (String × JsonVal))
    (n a m uuid n2 li ad mc rg uuid2 : String)
    (hn : List.lookup "name" fs = some (.str n))
    (ha : List.lookup "legal_address" fs = some (.str a))
    (hm : List.lookup "main_contact" fs = some (.str m))
    (hid : List.lookup "id" fs = none)
    (hu : uuid ≠ "")
    (hfresh : ∀ row ∈ db, row.id ≠ uuid)
    (hn2 : List.lookup "name" fs2 = some (.str n2))
    (hli : List.lookup "legal_id" fs2 = some (.str li))
    (had : List.lookup "address" fs2 = some (.str ad))
    (hmc : List.lookup "main_contact" fs2 = some (.str mc))
    (hrg : List.lookup "region" fs2 = some (.str rg))
    (hid2 : List.lookup "id" fs2 = none)
    (hu2 : uuid2 ≠ "")
    (hfresh2 : ∀ row ∈ db2, row.id ≠ uuid2) :
    Region.fromCreateRequest ⟨some (.obj fs)⟩ = some ⟨"", n, a, m⟩
    ∧ Regions.get (.ok (regionSelectById
        (db ++ [Region.insertedRow ⟨"", n, a, m⟩ uuid]) uuid))
      = [.respond ⟨200, .json (Region.getRowToJson
          (Region.insertedRow ⟨"", n, a, m⟩ uuid))⟩]
    ∧ (Region.getRowToJson (Region.insertedRow ⟨"", n, a, m⟩ uuid)).objField
        "id" = some (.str uuid)
    ∧ (Region.getRowToJson (Region.insertedRow ⟨"", n, a, m⟩ uuid)).objField
        "name" = some (.str n)
    ∧ (Region.getRowToJson (Region.insertedRow ⟨"", n, a, m⟩ uuid)).objField
        "legal_address" = some (.str a)
    ∧ (Region.getRowToJson (Region.insertedRow ⟨"", n, a, m⟩ uuid)).objField
        "main_contact" = some (.str m)
    ∧ uuid ≠ "" ∧ List.lookup "id" fs = none
    ∧ School.fromCreateRequest ⟨some (.obj fs2)⟩
      = some ⟨"", n2, li, ad, mc, rg⟩
    ∧ Schools.get (.ok (schoolSelectById
        (db2 ++ [School.insertedRow ⟨"", n2, li, ad, mc, rg⟩ uuid2]) uuid2))
      = [.respond ⟨200, .json (School.getRowToJson
          (School.insertedRow ⟨"", n2, li, ad, mc, rg⟩ uuid2))⟩]
    ∧ (School.getRowToJson (School.insertedRow ⟨"", n2, li, ad, mc, rg⟩
        uuid2)).objField "id" = some (.str uuid2)
    ∧ (School.getRowToJson (School.insertedRow ⟨"", n2, li, ad, mc, rg⟩
        uuid2)).objField "name" = some (.str n2)
    ∧ (School.getRowToJson (School.insertedRow ⟨"", n2, li, ad, mc, rg⟩
        uuid2)).objField "legal_id" = some (.str li)
    ∧ (School.getRowToJson (School.insertedRow ⟨"", n2, li, ad, mc, rg⟩
        uuid2)).objField "address" = some (.str ad)
    ∧ (School.getRowToJson (School.insertedRow ⟨"", n2, li, ad, mc, rg⟩
        uuid2)).objField "main_contact" = some (.str mc)
    ∧ (School.getRowToJson (School.insertedRow ⟨"", n2, li, ad, mc, rg⟩
        uuid2)).objField "region" = some (.str rg)
    ∧ uuid2 ≠ "" ∧ List.lookup "id" fs2 = none := by
  refine ⟨regionFromCreateRequest_obj fs n a m
      (extractField_lookup_str fs "name" n hn)
      (extractField_lookup_str fs "legal_address" a ha)
      (extractField_lookup_str fs "main_contact" m hm),
    ?_, rfl, rfl, rfl,
    congrArg (fun x => some (JsonVal.str x)) (store_getD m),
    hu, hid,
    schoolFromCreateRequest_obj fs2 n2 li ad mc rg
      (extractField_lookup_str fs2 "name" n2 hn2)
      (extractField_lookup_str fs2 "legal_id" li hli)
      (extractField_lookup_str fs2 "address" ad had)
      (extractField_lookup_str fs2 "main_contact" mc hmc)
      (extractField_lookup_str fs2 "region" rg hrg),
    ?_, rfl, rfl, rfl, rfl, rfl, rfl, hu2, hid2⟩
  · rw [regionSelectById_snoc_fresh db _ uuid hfresh rfl]
    rfl
  · rw [schoolSelectById_snoc_fresh db2 _ uuid2 hfresh2 rfl]
    rfl

/-- Witness for the amended C2: a Region created from a payload with an
empty main_contact and a School created from a full payload, each read
back by the storage-assigned id. -/
theorem create_then_get_roundtrip_witness :
    Region.fromCreateRequest
        ⟨some (.obj [("name", .str "R1"), ("legal_address", .str "A1"),
                     ("main_contact", .str "")])⟩
      = some ⟨"", "R1", "A1", ""⟩
    ∧ Regions.get (.ok (regionSelectById
        ([] ++ [Region.insertedRow ⟨"", "R1", "A1", ""⟩ "ur-1"]) "ur-1"))
      = [.respond ⟨200, .json (Region.getRowToJson
          (Region.insertedRow ⟨"", "R1", "A1", ""⟩ "ur-1"))⟩]
    ∧ (Region.getRowToJson (Region.insertedRow ⟨"", "R1", "A1", ""⟩
        "ur-1")).objField "id" = some (.str "ur-1")
    ∧ (Region.getRowToJson (Region.insertedRow ⟨"", "R1", "A1", ""⟩
        "ur-1")).objField "name" = some (.str "R1")
    ∧ (Region.getRowToJson (Region.insertedRow ⟨"", "R1", "A1", ""⟩
        "ur-1")).objField "legal_address" = some (.str "A1")
    ∧ (Region.getRowToJson (Region.insertedRow ⟨"", "R1", "A1", ""⟩
        "ur-1")).objField "main_contact" = some (.str "")
    ∧ ("ur-1" : String) ≠ ""
    ∧ List.lookup "id" [("name", JsonVal.str "R1"),
        ("legal_address", JsonVal.str "A1"),
        ("main_contact", JsonVal.str "")] = none
    ∧ School.fromCreateRequest
        ⟨some (.obj [("name", .str "S1"), ("legal_id", .str "L1"),
                     ("address", .str "A2"), ("main_contact", .str "C1"),
                     ("region", .str "ur-1")])⟩
      = some ⟨"", "S1", "L1", "A2", "C1", "ur-1"⟩
    ∧ Schools.get (.ok (schoolSelectById
        ([] ++ [School.insertedRow ⟨"", "S1", "L1", "A2", "C1", "ur-1"⟩
          "us-1"]) "us-1"))
      = [.respond ⟨200, .json (School.getRowToJson
          (School.insertedRow ⟨"", "S1", "L1", "A2", "C1", "ur-1"⟩
            "us-1"))⟩]
    ∧ (School.getRowToJson (School.insertedRow
        ⟨"", "S1", "L1", "A2", "C1", "ur-1"⟩ "us-1")).objField "id"
      = some (.str "us-1")
    ∧ (School.getRowToJson (School.insertedRow
        ⟨"", "S1", "L1", "A2", "C1", "ur-1"⟩ "us-1")).objField "name"
      = some (.str "S1")
    ∧ (School.getRowToJson (School.insertedRow
        ⟨"", "S1", "L1", "A2", "C1", "ur-1"⟩ "us-1")).objField "legal_id"
      = some (.str "L1")
    ∧ (School.getRowToJson (School.insertedRow
        ⟨"", "S1", "L1", "A2", "C1", "ur-1"⟩ "us-1")).objField "address"
      = some (.str "A2")
    ∧ (School.getRowToJson (School.insertedRow
        ⟨"", "S1", "L1", "A2", "C1", "ur-1"⟩ "us-1")).objField "main_contact"
      = some (.str "C1")
    ∧ (School.getRowToJson (School.insertedRow
        ⟨"", "S1", "L1", "A2", "C1", "ur-1"⟩ "us-1")).objField "region"
      = some (.str "ur-1")
    ∧ ("us-1" : String) ≠ ""
    ∧ List.lookup "id" [("name", JsonVal.str "S1"),
        ("legal_id", JsonVal.str "L1"), ("address", JsonVal.str "A2"),
        ("main_contact", JsonVal.str "C1"),
        ("region", JsonVal.str "ur-1")] = none :=
  create_then_get_roundtrip [] []
    [("name", .str "R1"), ("legal_address", .str "A1"),
     ("main_contact", .str "")]
    [("name", .str "S1"), ("legal_id", .str "L1"), ("address", .str "A2"),
     ("main_contact", .str "C1"), ("region", .str "ur-1")]
    "R1" "A1" "" "ur-1" "S1" "L1" "A2" "C1" "ur-1" "us-1"
    rfl rfl rfl rfl (by decide) (by simp)
    rfl rfl rfl rfl rfl rfl (by decide) (by simp)

end DigiEdu
